import Mathlib

/-!
Shallow embedding of the LightRAG entity-query engine
(`lightrag/entity_query_filters.py` and
`lightrag/services/entity_query_service.py`) and proofs about it.

Modelling conventions:
* Python `dict`-shaped records become structures whose typed fields are the
  keys the code reads; `Option` marks a key that may be absent.  An `extra`
  association list carries any further keys (used only by the dynamic
  `get(sort_field)` accesses).
* Python numbers become `Int` (ints) and `Rat` (floats); the float values the
  code manipulates (weights, relevance scores) are exact decimals, so `Rat`
  represents them faithfully.
* Python truthiness is embedded explicitly at each use site (`None`, `0`,
  `""`, `[]` and `{}` are falsy).
* `sorted`/`list.sort` wrapped in `try/except` becomes: if every pair of sort
  keys is comparable, a stable insertion sort (a stable sort by a total
  preorder is unique, so any stable sort models CPython's Timsort); otherwise
  the original list, embedding the `except: return unsorted` fallback.
* Store objects (`BaseGraphStorage`, `BaseKVStorage`) are function-valued
  structures mirroring the collaborator contract.
-/

/-- Modelled from the spec: the shared field-separator constant
`GRAPH_FIELD_SEP` (from `lightrag/constants.py`, which is not part of the
sources here).  The spec only requires that a single shared delimiter is used
to pack multi-valued attributes into one string; no claim depends on the
literal value. -/
def GRAPH_FIELD_SEP : String := "<SEP>"

/-- Lexicographic `<` on character lists: Python's string comparison
(by code point), written as a Bool recursion so that it evaluates inside
the kernel. -/
def charListLt : List Char → List Char → Bool
  | _, [] => false
  | [], _ :: _ => true
  | a :: as, b :: bs =>
    if a < b then true else if b < a then false else charListLt as bs

/-- Python `a < b` on strings. -/
def strLtB (a b : String) : Bool := charListLt a.data b.data

/-- A Python value as it occurs in the dynamic `get(sort_field)` accesses:
`None`, an int, a float (exact decimal, as `Rat`), a string, a bool, or a
list of strings (the only list-valued fields the engine stores). -/
inductive Value where
  | vnone : Value
  | vint (i : Int) : Value
  | vrat (q : Rat) : Value
  | vstr (s : String) : Value
  | vbool (b : Bool) : Value
  | vstrlist (l : List String) : Value
deriving DecidableEq, Repr

namespace Value

/-- Numeric view: Python compares ints, floats and bools with one another. -/
def toRat? : Value → Option Rat
  | vint i => some (i : Rat)
  | vrat q => some q
  | vbool b => some (if b then 1 else 0)
  | _ => none

/-- Lexicographic `<` on string lists (Python list comparison; comparing two
lists of strings never raises). -/
def strListLt : List String → List String → Bool
  | _, [] => false
  | [], _ :: _ => true
  | a :: as, b :: bs => if a = b then strListLt as bs else strLtB a b

/-- Python `a < b`, partial: `none` models a `TypeError` between
incomparable values (e.g. `str` vs `int`, or anything vs `None`). -/
def pyLt? : Value → Value → Option Bool
  | vstr a, vstr b => some (strLtB a b)
  | vstrlist a, vstrlist b => some (strListLt a b)
  | a, b =>
    match a.toRat?, b.toRat? with
    | some x, some y => some (decide (x < y))
    | _, _ => none

/-- Total version of `pyLt?` used only after comparability has been
established (the `getD` branch is then never reached). -/
def pyLt (a b : Value) : Bool := (pyLt? a b).getD false

/-- Every pair of keys drawn from the list is comparable: the sort key lists
on which CPython's sort runs without raising `TypeError`. -/
def allComparable (l : List Value) : Bool :=
  l.all fun a => l.all fun b => (pyLt? a b).isSome

end Value

/-- A Python attribute that may be stored either as a single
delimiter-joined string or as a native list of strings. -/
abbrev StrOrList : Type := String ⊕ List String

/-- From `RelationshipDirection` in `entity_query_filters.py`. -/
inductive RelationshipDirection where
  | incoming | outgoing | both
deriving DecidableEq, Repr

/-- From `SortOrder` in `entity_query_filters.py`. -/
inductive SortOrder where
  | asc | desc
deriving DecidableEq, Repr

/-- From `SortOrder.value` (the enum's string payload). -/
def SortOrder.value : SortOrder → String
  | .asc => "asc"
  | .desc => "desc"

/-- The fields of `RelationshipFilters` (`entity_query_filters.py`).
Construction-time validation is `RelationshipFilters.validate` below. -/
structure RelationshipFilters where
  direction : RelationshipDirection := .both
  relation_types : Option (List String) := none
  related_entity_types : Option (List String) := none
  min_weight : Rat := 0
  max_weight : Rat := 1
  keywords : Option (List String) := none
  file_paths : Option (List String) := none
  date_from : Option Int := none
  date_to : Option Int := none
  limit : Option Int := none
  offset : Int := 0
  sort_by : String := "weight"
  sort_order : SortOrder := .desc
deriving Repr

/-- `RelationshipFilters.__post_init__`: the checks, in source order. -/
def RelationshipFilters.validate (f : RelationshipFilters) :
    Except String RelationshipFilters :=
  if f.min_weight < 0 ∨ f.min_weight > 1 then
    .error "min_weight must be between 0.0 and 1.0"
  else if f.max_weight < 0 ∨ f.max_weight > 1 then
    .error "max_weight must be between 0.0 and 1.0"
  else if f.min_weight > f.max_weight then
    .error "min_weight cannot be greater than max_weight"
  else if (match f.limit with | some l => decide (l < 1) | none => false) then
    .error "limit must be at least 1"
  else if f.offset < 0 then
    .error "offset cannot be negative"
  else
    .ok f

/-- The fields of `DocumentFilters` (`entity_query_filters.py`). -/
structure DocumentFilters where
  file_paths : Option (List String) := none
  doc_ids : Option (List String) := none
  chunk_ids : Option (List String) := none
  date_from : Option Int := none
  date_to : Option Int := none
  max_chunks : Int := 100
  offset : Int := 0
  include_full_text : Bool := true
  include_metadata : Bool := true
  sort_by : String := "timestamp"
  sort_order : SortOrder := .desc
deriving Repr

/-- `DocumentFilters.__post_init__`: the checks, in source order. -/
def DocumentFilters.validate (f : DocumentFilters) :
    Except String DocumentFilters :=
  if f.max_chunks < 1 then
    .error "max_chunks must be at least 1"
  else if f.offset < 0 then
    .error "offset cannot be negative"
  else
    .ok f

/-- Python list slicing `l[start:stop]` for int `start` and int-or-`None`
`stop`: negative indices count from the end, out-of-range indices clamp. -/
def pySlice (l : List α) (start : Int) (stop : Option Int) : List α :=
  let n : Int := l.length
  let s : Int := if start < 0 then max 0 (n + start) else min start n
  let e : Int := match stop with
    | none => n
    | some e0 => if e0 < 0 then max 0 (n + e0) else min e0 n
  (l.drop s.toNat).take (e - s).toNat

/-- `EntityQueryService._apply_pagination`: `items[offset : offset+limit]`
with the end bound only when `limit` is truthy (`None` and `0` are falsy). -/
def applyPagination (items : List α) (limit : Option Int) (offset : Int) :
    List α :=
  let stop : Option Int := match limit with
    | some l => if l ≠ 0 then some (offset + l) else none
    | none => none
  pySlice items offset stop

/-- Graph-edge data as returned by `graph.get_edge`: the keys the engine
reads, plus `extra` for any other keys (reachable only through the dynamic
`get(sort_field)` access).  A `none` typed field is an absent key. -/
structure EdgeRec where
  weight : Option Rat := none
  keywords : Option String := none
  description : Option String := none
  file_paths : Option StrOrList := none
  timestamp : Option Int := none
  created_at : Option Int := none
  extra : List (String × Value) := []
deriving DecidableEq, Repr

/-- Graph-node data as returned by `graph.get_node` / `get_all_nodes`. -/
structure NodeRec where
  id : Option String := none
  entity_name : Option String := none
  name : Option String := none
  entity_type : Option String := none
  description : Option String := none
  created_at : Option Int := none
  timestamp : Option Int := none
  source_id : Option StrOrList := none
  source_ids : Option StrOrList := none
  file_path : Option StrOrList := none
  file_paths : Option StrOrList := none
deriving DecidableEq, Repr

/-- Text-chunk data as returned by `text_chunks.get_by_ids`. -/
structure ChunkRec where
  content : Option String := none
  file_path : Option String := none
  full_doc_id : Option String := none
  doc_id : Option String := none
  chunk_order_index : Option Int := none
  tokens : Option Int := none
  timestamp : Option Int := none
  created_at : Option Int := none
deriving DecidableEq, Repr

/-- Python truthiness of a string-or-list attribute (`""` and `[]` falsy). -/
def StrOrList.truthy : StrOrList → Bool
  | .inl s => s ≠ ""
  | .inr l => !l.isEmpty

/-- The `isinstance(x, str) → x.split(GRAPH_FIELD_SEP) if x else []` /
`isinstance(x, list) → x` normalisation applied to multi-valued fields. -/
def StrOrList.toIds : StrOrList → List String
  | .inl s => if s ≠ "" then s.splitOn GRAPH_FIELD_SEP else []
  | .inr l => l

/-- Python `a or b` over two optional string-or-list fields read with
default `""`: the first truthy value wins, otherwise the second field's
value (defaulting to `""`). -/
def pyOrField (a b : Option StrOrList) : StrOrList :=
  match a with
  | some v => if v.truthy then v else b.getD (.inl "")
  | none => b.getD (.inl "")

/-- Python truthiness of an `Optional[List[...]]` filter field
(`None` and `[]` are falsy). -/
def listTruthy (l : Option (List α)) : Bool :=
  match l with
  | some xs => !xs.isEmpty
  | none => false

/-- Python substring test `needle in hay` (contiguous substring). -/
def strContains (hay needle : String) : Bool :=
  decide (needle.data <:+: hay.data)

/-- Python `s.lower()` (per-character lowercasing; written over the
character list so that it evaluates inside the kernel). -/
def pyLower (s : String) : String := ⟨s.data.map Char.toLower⟩

/-- Python `s.startswith(p)`. -/
def pyStartsWith (p s : String) : Bool := p.data.isPrefixOf s.data

/-- An edge dict built by `_process_edges`:
`{"source": …, "target": …, "direction": …, **edge_data}`. -/
structure EdgeOut where
  source : String
  target : String
  direction : String
  data : EdgeRec
deriving DecidableEq, Repr

/-- Dynamic key access `edge.get(k)` on an edge dict (`none` for an absent
key, `Value.vnone` also for a key stored as `None`). -/
def EdgeOut.get (e : EdgeOut) (k : String) : Value :=
  if k = "weight" then
    match e.data.weight with | some q => .vrat q | none => .vnone
  else if k = "keywords" then
    match e.data.keywords with | some s => .vstr s | none => .vnone
  else if k = "description" then
    match e.data.description with | some s => .vstr s | none => .vnone
  else if k = "file_paths" then
    match e.data.file_paths with
    | some (.inl s) => .vstr s
    | some (.inr l) => .vstrlist l
    | none => .vnone
  else if k = "timestamp" then
    match e.data.timestamp with | some t => .vint t | none => .vnone
  else if k = "created_at" then
    match e.data.created_at with | some t => .vint t | none => .vnone
  else
    match e.data.extra.lookup k with
    | some v => v
    | none =>
      if k = "source" then .vstr e.source
      else if k = "target" then .vstr e.target
      else if k = "direction" then .vstr e.direction
      else .vnone

/-- The weight the predicate filters on: `edge.get("weight", 1.0)`. -/
def EdgeOut.weightD (e : EdgeOut) : Rat := e.data.weight.getD 1

/-- `edge.get("timestamp") or edge.get("created_at")` (`0` is falsy, so a
zero timestamp falls through to `created_at`). -/
def EdgeRec.effTimestamp (e : EdgeRec) : Option Int :=
  match e.timestamp with
  | some t => if t ≠ 0 then some t else e.created_at
  | none => e.created_at

/-- The date-range clause of `_edge_matches_filters`: bounds apply only when
the resolved timestamp is truthy, and each bound only when itself truthy. -/
def edgeDateOk (e : EdgeRec) (date_from date_to : Option Int) : Bool :=
  match e.effTimestamp with
  | some t =>
    if t = 0 then true
    else
      (match date_from with
        | some df => if df ≠ 0 then decide (t ≥ df) else true
        | none => true) &&
      (match date_to with
        | some dt => if dt ≠ 0 then decide (t ≤ dt) else true
        | none => true)
  | none => true

/-- `EntityQueryService._edge_matches_filters`: all clauses AND-ed, in
source order (the weight clause, then the `relation_types`, `keywords`,
`file_paths` and date-range clauses; the related-entity-type filter is a
TODO in the source and filters nothing). -/
def edgeMatchesFilters (e : EdgeOut) (f : RelationshipFilters) : Bool :=
  (!(e.weightD < f.min_weight ∨ e.weightD > f.max_weight)) &&
  (if listTruthy f.relation_types then
    (f.relation_types.getD []).any fun rt =>
      strContains (pyLower (e.data.keywords.getD "")) (pyLower rt)
   else true) &&
  (if listTruthy f.keywords then
    (f.keywords.getD []).any fun kw =>
      strContains
        (pyLower ((e.data.description.getD "") ++ " " ++ (e.data.keywords.getD "")))
        (pyLower kw)
   else true) &&
  (if listTruthy f.file_paths then
    (f.file_paths.getD []).any fun fp =>
      (match e.data.file_paths with
        | some (.inl s) => s.splitOn GRAPH_FIELD_SEP
        | some (.inr l) => l
        | none => []).contains fp
   else true) &&
  edgeDateOk e.data f.date_from f.date_to

/-- The `sorted(..., key=…, reverse=…)` call guarded by `try/except`: when
every pair of keys is comparable the stable sort by the key runs (a stable
sort by a total preorder is unique, so insertion sort models CPython's
sort); when some pair is incomparable CPython raises `TypeError` and the
`except` branch keeps the list unsorted. -/
def pySortBy (key : α → Value) (reverse : Bool) (l : List α) : List α :=
  if Value.allComparable (l.map key) then
    if reverse then
      List.insertionSort (fun a b => Value.pyLt (key a) (key b) = false) l
    else
      List.insertionSort (fun a b => Value.pyLt (key b) (key a) = false) l
  else l

/-- `get_sort_key` inside `_sort_edges`: `edge.get(sort_field)` with the
`None` defaults (`0.0` for weight, `0` for timestamp/created_at, `""`
otherwise). -/
def edgeSortKey (sort_by : String) (e : EdgeOut) : Value :=
  match e.get sort_by with
  | .vnone =>
    if sort_by = "weight" then .vrat 0
    else if sort_by = "timestamp" ∨ sort_by = "created_at" then .vint 0
    else .vstr ""
  | v => v

/-- `EntityQueryService._sort_edges`. -/
def sortEdges (edges : List EdgeOut) (f : RelationshipFilters) : List EdgeOut :=
  pySortBy (edgeSortKey f.sort_by) (f.sort_order.value = "desc") edges

/-- `EntityQueryService._process_edges`: build each edge dict with
source/target resolved from the direction, keep those matching the filters,
then sort.  (The `neighbor_id` argument of `_edge_matches_filters` is unused
in the source — the related-entity-type filter is a TODO — so it is not
threaded through here.) -/
def processEdges (edges : List (String × EdgeRec)) (entity_name : String)
    (direction : String) (f : RelationshipFilters) : List EdgeOut :=
  let processed := edges.filterMap fun nd =>
    let e : EdgeOut :=
      if direction = "incoming" then
        ⟨nd.1, entity_name, direction, nd.2⟩
      else
        ⟨entity_name, nd.1, direction, nd.2⟩
    if edgeMatchesFilters e f then some e else none
  sortEdges processed f

/-- Python truthiness of an edge-data dict (`if edge_data:`). -/
def EdgeRec.truthy (e : EdgeRec) : Bool :=
  e.weight.isSome || e.keywords.isSome || e.description.isSome ||
  e.file_paths.isSome || e.timestamp.isSome || e.created_at.isSome ||
  !e.extra.isEmpty

/-- The graph-storage collaborator (`BaseGraphStorage` contract, §6 of the
spec): node membership, node lookup, per-node edge listing, edge lookup and
full scan. -/
structure GraphStore where
  has_node : String → Bool
  get_node : String → Option NodeRec
  node_edges : String → Option (List (String × String))
  get_edge : String → String → Option EdgeRec
  all_nodes : List (Option NodeRec)

/-- The chunk-storage collaborator (`BaseKVStorage.get_by_ids` contract):
a batch fetch returning, per id, the record or the absence marker, iterated
in mapping order. -/
structure ChunkStore where
  get_by_ids : List String → List (String × Option ChunkRec)

/-- Result shape of `get_entity_relationships`:
`{"incoming": …, "outgoing": …, "total_count": …}`. -/
structure RelResult where
  incoming : List EdgeOut
  outgoing : List EdgeOut
  total_count : Nat
deriving DecidableEq, Repr

/-- `if filters.limit or filters.offset:` — the truthiness guard before
pagination (`None` and `0` falsy). -/
def relPaginationGuard (f : RelationshipFilters) : Bool :=
  (match f.limit with | some l => l ≠ 0 | none => false) || f.offset ≠ 0

/-- The edge fetch and direction classification of
`get_entity_relationships`: for each `(source_id, target_id)` returned by
`get_node_edges`, fetch the edge data and keep the truthy records, tagging
each with `"incoming"` (queried entity is the target) or `"outgoing"`. -/
def edgesWithData (g : GraphStore) (entity_name : String) :
    List (String × EdgeRec × String) :=
  ((g.node_edges entity_name).getD []).filterMap fun st =>
    match g.get_edge st.1 st.2 with
    | some d =>
      if d.truthy then
        if st.2 = entity_name then some (st.1, d, "incoming")
        else some (st.2, d, "outgoing")
      else none
    | none => none

/-- The incoming list of `get_entity_relationships` before pagination:
direction gate, then `_process_edges` (filter + sort). -/
def incomingProcessed (g : GraphStore) (entity_name : String)
    (f : RelationshipFilters) : List EdgeOut :=
  if f.direction = .incoming ∨ f.direction = .both then
    processEdges
      (((edgesWithData g entity_name).filter fun x => x.2.2 = "incoming").map
        fun x => (x.1, x.2.1))
      entity_name "incoming" f
  else []

/-- The outgoing list of `get_entity_relationships` before pagination. -/
def outgoingProcessed (g : GraphStore) (entity_name : String)
    (f : RelationshipFilters) : List EdgeOut :=
  if f.direction = .outgoing ∨ f.direction = .both then
    processEdges
      (((edgesWithData g entity_name).filter fun x => x.2.2 = "outgoing").map
        fun x => (x.1, x.2.1))
      entity_name "outgoing" f
  else []

/-- `EntityQueryService.get_entity_relationships`: existence check, edge
fetch and direction classification, per-direction processing, then the
per-direction pagination guarded by `relPaginationGuard`, with
`total_count` the sum of the two final list lengths. -/
def getEntityRelationships (g : GraphStore) (entity_name : String)
    (filters : Option RelationshipFilters) : RelResult :=
  let f := filters.getD {}
  if !g.has_node entity_name then ⟨[], [], 0⟩
  else
    let all_edges := (g.node_edges entity_name).getD []
    if all_edges.isEmpty then ⟨[], [], 0⟩
    else
      let incoming_edges := incomingProcessed g entity_name f
      let outgoing_edges := outgoingProcessed g entity_name f
      let incoming_edges :=
        if relPaginationGuard f then
          applyPagination incoming_edges f.limit f.offset
        else incoming_edges
      let outgoing_edges :=
        if relPaginationGuard f then
          applyPagination outgoing_edges f.limit f.offset
        else outgoing_edges
      ⟨incoming_edges, outgoing_edges,
        incoming_edges.length + outgoing_edges.length⟩

/-- `chunk_data.get("timestamp") or chunk_data.get("created_at")`
(`0` falsy, as for edges). -/
def ChunkRec.effTimestamp (c : ChunkRec) : Option Int :=
  match c.timestamp with
  | some t => if t ≠ 0 then some t else c.created_at
  | none => c.created_at

/-- The date-range clause of `_chunk_matches_filters` (same shape as the
edge clause). -/
def chunkDateOk (c : ChunkRec) (date_from date_to : Option Int) : Bool :=
  match c.effTimestamp with
  | some t =>
    if t = 0 then true
    else
      (match date_from with
        | some df => if df ≠ 0 then decide (t ≥ df) else true
        | none => true) &&
      (match date_to with
        | some dt => if dt ≠ 0 then decide (t ≤ dt) else true
        | none => true)
  | none => true

/-- `chunk_data.get("full_doc_id") or chunk_data.get("doc_id")`
(`""` falsy). -/
def ChunkRec.effDocId (c : ChunkRec) : Option String :=
  match c.full_doc_id with
  | some s => if s ≠ "" then some s else c.doc_id
  | none => c.doc_id

/-- `EntityQueryService._chunk_matches_filters`: file-path allow-list,
doc-id allow-list and date range, AND-ed in source order. -/
def chunkMatchesFilters (c : ChunkRec) (f : DocumentFilters) : Bool :=
  (if listTruthy f.file_paths then
    match c.file_path with
    | some fp => (f.file_paths.getD []).contains fp
    | none => false
   else true) &&
  (if listTruthy f.doc_ids then
    match c.effDocId with
    | some d => (f.doc_ids.getD []).contains d
    | none => false
   else true) &&
  chunkDateOk c f.date_from f.date_to

/-- A formatted chunk dict as built by `_format_chunk`: `chunk_id` always,
`content` only under `include_full_text`, the metadata keys only under
`include_metadata` (each metadata key present but possibly `None`). -/
structure ChunkMeta where
  file_path : Option String
  doc_id : Option String
  chunk_order_index : Option Int
  tokens : Option Int
  timestamp : Option Int
deriving DecidableEq, Repr

structure ChunkOut where
  chunk_id : String
  content : Option String
  metadata : Option ChunkMeta
deriving DecidableEq, Repr

/-- `EntityQueryService._format_chunk`. -/
def formatChunk (chunk_id : String) (c : ChunkRec)
    (include_full_text include_metadata : Bool) : ChunkOut :=
  { chunk_id := chunk_id
    content := if include_full_text then some (c.content.getD "") else none
    metadata :=
      if include_metadata then
        some { file_path := c.file_path
               doc_id := c.effDocId
               chunk_order_index := c.chunk_order_index
               tokens := c.tokens
               timestamp := c.effTimestamp }
      else none }

/-- Dynamic key access `chunk.get(k)` on a formatted chunk dict. -/
def ChunkOut.get (c : ChunkOut) (k : String) : Value :=
  if k = "chunk_id" then .vstr c.chunk_id
  else if k = "content" then
    match c.content with | some s => .vstr s | none => .vnone
  else
    match c.metadata with
    | some m =>
      if k = "file_path" then
        match m.file_path with | some s => .vstr s | none => .vnone
      else if k = "doc_id" then
        match m.doc_id with | some s => .vstr s | none => .vnone
      else if k = "chunk_order_index" then
        match m.chunk_order_index with | some i => .vint i | none => .vnone
      else if k = "tokens" then
        match m.tokens with | some i => .vint i | none => .vnone
      else if k = "timestamp" then
        match m.timestamp with | some t => .vint t | none => .vnone
      else .vnone
    | none => .vnone

/-- `get_sort_key` inside `_sort_chunks`: `chunk.get(sort_field)` with the
`None` defaults (`0` for timestamp/created_at and for chunk_order_index,
`""` otherwise). -/
def chunkSortKey (sort_by : String) (c : ChunkOut) : Value :=
  match c.get sort_by with
  | .vnone =>
    if sort_by = "timestamp" ∨ sort_by = "created_at" then .vint 0
    else if sort_by = "chunk_order_index" then .vint 0
    else .vstr ""
  | v => v

/-- `EntityQueryService._sort_chunks`. -/
def sortChunks (chunks : List ChunkOut) (f : DocumentFilters) :
    List ChunkOut :=
  pySortBy (chunkSortKey f.sort_by) (f.sort_order.value = "desc") chunks

/-- Python truthiness of a node-data dict (`if not entity_data:` /
`if entity_data:`). -/
def NodeRec.truthy (n : NodeRec) : Bool :=
  n.id.isSome || n.entity_name.isSome || n.name.isSome ||
  n.entity_type.isSome || n.description.isSome || n.created_at.isSome ||
  n.timestamp.isSome || n.source_id.isSome || n.source_ids.isSome ||
  n.file_path.isSome || n.file_paths.isSome

/-- `EntityQueryService.get_entity_details` (a plain `get_node` plus the
not-found warning). -/
def getEntityDetails (g : GraphStore) (entity_name : String) :
    Option NodeRec :=
  g.get_node entity_name

/-- `EntityQueryService.get_entity_documents`: resolve the entity's source
ids (handling the delimiter-joined and list representations and the
`source_id`/`source_ids` key split), intersect with a `chunk_ids`
allow-list, batch-fetch, filter, format, sort, paginate. -/
def getEntityDocuments (g : GraphStore) (ch : ChunkStore)
    (entity_name : String) (filters : Option DocumentFilters) :
    List ChunkOut :=
  let f := filters.getD {}
  match getEntityDetails g entity_name with
  | none => []
  | some entity_data =>
    if !entity_data.truthy then []
    else
    let source_ids := (pyOrField entity_data.source_id entity_data.source_ids).toIds
    if source_ids.isEmpty then []
    else
      let source_ids :=
        if listTruthy f.chunk_ids then
          source_ids.filter fun sid => (f.chunk_ids.getD []).contains sid
        else source_ids
      let chunks := ch.get_by_ids source_ids
      let processed := chunks.filterMap fun idData =>
        match idData.2 with
        | none => none
        | some cd =>
          if chunkMatchesFilters cd f then
            some (formatChunk idData.1 cd f.include_full_text f.include_metadata)
          else none
      let processed := sortChunks processed f
      applyPagination processed (some f.max_chunks) f.offset

/-- The statistics dict built by `_compute_statistics`: every key is
conditional, `some` models key presence. -/
structure Stats where
  total_source_chunks : Option Nat := none
  unique_files : Option Nat := none
  total_relationships : Option Nat := none
  incoming_relationships : Option Nat := none
  outgoing_relationships : Option Nat := none
  avg_relationship_weight : Option Rat := none
  returned_chunks : Option Nat := none
  unique_documents : Option Nat := none
deriving DecidableEq, Repr

/-- Python truthiness of the statistics dict (`if statistics:`). -/
def Stats.truthy (s : Stats) : Bool :=
  s.total_source_chunks.isSome || s.unique_files.isSome ||
  s.total_relationships.isSome || s.incoming_relationships.isSome ||
  s.outgoing_relationships.isSome || s.avg_relationship_weight.isSome ||
  s.returned_chunks.isSome || s.unique_documents.isSome

/-- `d.get("doc_id")` on a formatted chunk, kept only when truthy — the
generator inside `_compute_statistics`. -/
def ChunkOut.truthyDocId (c : ChunkOut) : Option String :=
  match c.metadata with
  | some m =>
    match m.doc_id with
    | some s => if s ≠ "" then some s else none
    | none => none
  | none => none

/-- `EntityQueryService._compute_statistics`: each block of keys is added
only when its input section is truthy; `avg_relationship_weight` only when
the combined edge list is nonempty. -/
def computeStatistics (entity_data : Option NodeRec)
    (relationships : Option RelResult) (documents : Option (List ChunkOut)) :
    Stats :=
  let entStats : Stats :=
    match entity_data with
    | some n =>
      if n.truthy then
        let source_ids := (pyOrField n.source_id n.source_ids).toIds
        let file_paths := (pyOrField n.file_path n.file_paths).toIds
        { total_source_chunks := some source_ids.length
          unique_files := some file_paths.dedup.length }
      else {}
    | none => {}
  let relStats : Stats :=
    match relationships with
    | some r =>
      let all_edges := r.incoming ++ r.outgoing
      { entStats with
        total_relationships := some r.total_count
        incoming_relationships := some r.incoming.length
        outgoing_relationships := some r.outgoing.length
        avg_relationship_weight :=
          if !all_edges.isEmpty then
            some ((all_edges.map EdgeOut.weightD).sum / all_edges.length)
          else none }
    | none => entStats
  match documents with
  | some docs =>
    if !docs.isEmpty then
      { relStats with
        returned_chunks := some docs.length
        unique_documents := some (docs.filterMap ChunkOut.truthyDocId).dedup.length }
    else relStats
  | none => relStats

/-- `EntityQueryService._extract_related_entities`: neighbor ids of both
directions as a set, self-loop removed, sorted, truncated.  (An edge
attribute shadowing the synthetic `source`/`target` keys is outside the
model; the engine itself writes those keys.) -/
def extractRelatedEntities (entity_name : String) (relationships : RelResult)
    (max_entities : Int) : List String :=
  let related :=
    (relationships.incoming.map EdgeOut.source ++
      relationships.outgoing.map EdgeOut.target).dedup
  let related := related.filter fun s => s ≠ entity_name
  let related_list :=
    List.insertionSort (fun a b : String => strLtB b a = false) related
  pySlice related_list 0 (some max_entities)

/-- The fields of `EntityQueryOptions` (`entity_query_filters.py`).  Its
`__post_init__` replaces a `None` filter by the default-constructed filter
when the corresponding stage is enabled; the resolvers apply the same
default themselves, so `none` here has the same meaning. -/
structure EntityQueryOptions where
  include_entity_details : Bool := true
  include_relationships : Bool := true
  include_documents : Bool := true
  include_statistics : Bool := true
  relationship_filters : Option RelationshipFilters := none
  document_filters : Option DocumentFilters := none
  compute_related_entities : Bool := false
  max_related_entities : Int := 50

/-- The result dict of `query_entity_full`: every key after `entity_name`
is inserted only when its value is truthy (`if entity_data:`,
`if relationships:`, `if documents:`, …), so an empty list, empty dict or
`None` value leaves the key absent. -/
structure QueryResult where
  entity_name : String
  entity : Option NodeRec := none
  relationships : Option RelResult := none
  documents : Option (List ChunkOut) := none
  statistics : Option Stats := none
  related_entities : Option (List String) := none
deriving DecidableEq, Repr

/-- `EntityQueryService.query_entity_full`: the Detail stage short-circuits
to the not-found signal (`none`) only when requested; the other stages run
regardless, and the result keys are inserted under the truthiness guards of
the source. -/
def queryEntityFull (g : GraphStore) (ch : ChunkStore) (entity_name : String)
    (options : Option EntityQueryOptions) : Option QueryResult :=
  let o := options.getD {}
  let entity_data :=
    if o.include_entity_details then getEntityDetails g entity_name else none
  if o.include_entity_details && entity_data.isNone then none
  else
    let relationships :=
      if o.include_relationships then
        some (getEntityRelationships g entity_name o.relationship_filters)
      else none
    let documents :=
      if o.include_documents then
        some (getEntityDocuments g ch entity_name o.document_filters)
      else none
    let statistics :=
      if o.include_statistics then
        some (computeStatistics entity_data relationships documents)
      else none
    let related_entities :=
      if o.compute_related_entities && relationships.isSome then
        some (extractRelatedEntities entity_name
          (relationships.getD ⟨[], [], 0⟩) o.max_related_entities)
      else none
    some
      { entity_name := entity_name
        entity :=
          match entity_data with
          | some n => if n.truthy then some n else none
          | none => none
        relationships := relationships
        documents :=
          match documents with
          | some l => if !l.isEmpty then some l else none
          | none => none
        statistics :=
          match statistics with
          | some s => if s.truthy then some s else none
          | none => none
        related_entities :=
          match related_entities with
          | some l => if !l.isEmpty then some l else none
          | none => none }

/-- Python `a or b` over two optional-string reads (`""` falsy). -/
def pyOrStr (a b : Option String) : Option String :=
  match a with
  | some s => if s ≠ "" then some s else b
  | none => b

/-- The canonical entity identifier of `list_entities`:
`node.get("id") or node.get("entity_name") or node.get("name")` — first
truthy (non-`None`, nonempty) value wins. -/
def canonicalId (n : NodeRec) : Option String :=
  pyOrStr (pyOrStr n.id n.entity_name) n.name

/-- The entity summary dict built inside `list_entities`; `relevance_score`
is absent there and added by `search_entities`. -/
structure EntitySummary where
  entity_id : String
  entity_type : Option String
  description : String
  description_full_length : Nat
  created_at : Option Int
  source_count : Nat
  relevance_score : Option Rat
deriving DecidableEq, Repr

/-- Dynamic key access `e.get(k, "")` on an entity summary dict (default
`""`, unlike the edge/chunk sort keys; an `entity_type` key stored as
`None` yields `None`, which is how the listing sort can still fail). -/
def EntitySummary.get (e : EntitySummary) (k : String) : Value :=
  if k = "entity_id" then .vstr e.entity_id
  else if k = "entity_type" then
    match e.entity_type with | some s => .vstr s | none => .vnone
  else if k = "description" then .vstr e.description
  else if k = "description_full_length" then .vint e.description_full_length
  else if k = "created_at" then
    match e.created_at with | some t => .vint t | none => .vstr ""
  else if k = "source_count" then .vint e.source_count
  else if k = "relevance_score" then
    match e.relevance_score with | some q => .vrat q | none => .vstr ""
  else .vstr ""

/-- The per-node body of the `list_entities` scan loop: skip falsy or
non-dict nodes, resolve the canonical id, deduplicate (the id enters the
seen-set before the type/name filters run), apply the type and name
filters, build the summary. -/
def listEntitiesScan (nodes : List (Option NodeRec))
    (entity_types : Option (List String)) (name_pattern : Option String)
    (seen : List String) : List EntitySummary :=
  match nodes with
  | [] => []
  | optNode :: rest =>
    match optNode with
    | none => listEntitiesScan rest entity_types name_pattern seen
    | some node =>
      if !node.truthy then
        listEntitiesScan rest entity_types name_pattern seen
      else
        match canonicalId node with
        | none => listEntitiesScan rest entity_types name_pattern seen
        | some eid =>
          if eid = "" ∨ eid ∈ seen then
            listEntitiesScan rest entity_types name_pattern seen
          else
            let rest' := listEntitiesScan rest entity_types name_pattern (eid :: seen)
            if listTruthy entity_types ∧
                !((entity_types.getD []).map pyLower).contains
                  (pyLower (node.entity_type.getD "")) then
              rest'
            else if (match name_pattern with
                | some np => np ≠ "" && !strContains (pyLower eid) (pyLower np)
                | none => false) then
              rest'
            else
              let description := node.description.getD ""
              { entity_id := eid
                entity_type := node.entity_type
                description := if description ≠ "" then description.take 200 else ""
                description_full_length :=
                  if description ≠ "" then description.length else 0
                created_at :=
                  match node.created_at with
                  | some t => some t
                  | none => node.timestamp
                source_count :=
                  ((pyOrField node.source_id node.source_ids).toIds.filter
                    fun s => s ≠ "").length
                relevance_score := none } :: rest'

/-- Result shape of `list_entities`. -/
structure ListResult where
  entities : List EntitySummary
  total_count : Nat
  returned_count : Nat
  offset : Int
  limit : Int
  has_more : Bool
deriving DecidableEq, Repr

/-- `EntityQueryService.list_entities`: full scan, filter/dedup, sort (with
the `try/except` fallback), count before pagination, slice, build the
pagination envelope.  (The outer `try/except` that degrades a *store*
failure to an empty result is not modelled: the embedded store is total.) -/
def listEntities (g : GraphStore) (entity_types : Option (List String))
    (name_pattern : Option String) (limit : Int) (offset : Int)
    (sort_by : String) (sort_order : String) : ListResult :=
  let entities := listEntitiesScan g.all_nodes entity_types name_pattern []
  let reverse := pyLower sort_order = "desc"
  let entities := pySortBy (fun e => e.get sort_by) reverse entities
  let total_count := entities.length
  let page := pySlice entities offset (some (offset + limit))
  { entities := page
    total_count := total_count
    returned_count := page.length
    offset := offset
    limit := limit
    has_more := decide (offset + (page.length : Int) < (total_count : Int)) }

/-- The relevance-score chain of `search_entities`: exact, prefix,
substring, fuzzy — all on lowercased strings. -/
def relevanceScore (query entity_id : String) : Rat :=
  let query_lower := pyLower query
  let entity_id_lower := pyLower entity_id
  if entity_id_lower = query_lower then 1
  else if pyStartsWith query_lower entity_id_lower then 8/10
  else if strContains entity_id_lower query_lower then 1/2
  else 3/10

/-- `EntityQueryService.search_entities`: listing with the query as name
pattern, then scoring, then the stable descending re-sort by score. -/
def searchEntities (g : GraphStore) (query : String)
    (entity_types : Option (List String)) (limit : Int) :
    List EntitySummary :=
  let result := listEntities g entity_types (some query) limit 0 "entity_id" "asc"
  let entities_with_score := result.entities.map fun e =>
    { e with relevance_score := some (relevanceScore query e.entity_id) }
  List.insertionSort
    (fun a b =>
      decide ((b.relevance_score.getD 0) ≤ (a.relevance_score.getD 0)) = true)
    entities_with_score

/-! ## Spec-side predicates and shared witnesses -/

/-- The filter invariant of the spec for relationship filters:
`0 ≤ min_weight ≤ max_weight ≤ 1`, `limit` (if present) `≥ 1`,
`offset ≥ 0`. -/
def relFiltersValid (f : RelationshipFilters) : Prop :=
  0 ≤ f.min_weight ∧ f.min_weight ≤ f.max_weight ∧ f.max_weight ≤ 1 ∧
  (∀ l, f.limit = some l → 1 ≤ l) ∧ 0 ≤ f.offset

/-- The filter invariant of the spec for document filters:
`max_chunks ≥ 1`, `offset ≥ 0`. -/
def docFiltersValid (f : DocumentFilters) : Prop :=
  1 ≤ f.max_chunks ∧ 0 ≤ f.offset

lemma relValidate_cases (f : RelationshipFilters) :
    (f.validate = .ok f ∧ relFiltersValid f) ∨
    ((∃ msg, f.validate = .error msg) ∧ ¬ relFiltersValid f) := by
  unfold RelationshipFilters.validate
  split_ifs with h1 h2 h3 h4 h5
  · refine .inr ⟨⟨_, rfl⟩, fun hv => ?_⟩
    obtain ⟨a, b, c, -, -⟩ := hv
    rcases h1 with h | h <;> linarith
  · refine .inr ⟨⟨_, rfl⟩, fun hv => ?_⟩
    obtain ⟨a, b, c, -, -⟩ := hv
    rcases h2 with h | h <;> linarith
  · refine .inr ⟨⟨_, rfl⟩, fun hv => ?_⟩
    obtain ⟨a, b, c, -, -⟩ := hv
    linarith
  · refine .inr ⟨⟨_, rfl⟩, fun hv => ?_⟩
    obtain ⟨-, -, -, hd, -⟩ := hv
    revert h4
    cases hf : f.limit with
    | none => simp
    | some l =>
      have := hd l hf
      simp [hf]
      omega
  · refine .inr ⟨⟨_, rfl⟩, fun hv => ?_⟩
    obtain ⟨-, -, -, -, he⟩ := hv
    omega
  · refine .inl ⟨rfl, ?_, ?_, ?_, ?_, ?_⟩
    · push_neg at h1
      linarith [h1.1]
    · linarith [not_lt.mp h3]
    · push_neg at h2
      linarith [h2.2]
    · intro l hl
      rw [hl] at h4
      simp at h4
      omega
    · omega

lemma docValidate_cases (f : DocumentFilters) :
    (f.validate = .ok f ∧ docFiltersValid f) ∨
    ((∃ msg, f.validate = .error msg) ∧ ¬ docFiltersValid f) := by
  unfold DocumentFilters.validate
  split_ifs with h1 h2
  · exact .inr ⟨⟨_, rfl⟩, fun hv => by obtain ⟨a, -⟩ := hv; omega⟩
  · exact .inr ⟨⟨_, rfl⟩, fun hv => by obtain ⟨-, b⟩ := hv; omega⟩
  · exact .inl ⟨rfl, by omega, by omega⟩

/-- C3: for both filter types, construction succeeds exactly when the
invariants `0 ≤ min_weight ≤ max_weight ≤ 1`, `offset ≥ 0`, `limit` (if
present) `≥ 1` and `max_chunks ≥ 1` hold; a violation yields a validation
error (raised in `__post_init__`, i.e. before any store access — the
validators are pure functions of the field values); on success every field
reads back as the original constructed value. -/
theorem filters_validate_iff (rf : RelationshipFilters) (df : DocumentFilters) :
    ((∃ f, rf.validate = .ok f) ↔ relFiltersValid rf) ∧
    (∀ f, rf.validate = .ok f → f = rf) ∧
    (¬ relFiltersValid rf → ∃ msg, rf.validate = .error msg) ∧
    ((∃ f, df.validate = .ok f) ↔ docFiltersValid df) ∧
    (∀ f, df.validate = .ok f → f = df) ∧
    (¬ docFiltersValid df → ∃ msg, df.validate = .error msg) := by
  rcases relValidate_cases rf with ⟨hok, hv⟩ | ⟨⟨msg, herr⟩, hnv⟩ <;>
    rcases docValidate_cases df with ⟨hok', hv'⟩ | ⟨⟨msg', herr'⟩, hnv'⟩
  all_goals refine ⟨?_, ?_, ?_, ?_, ?_, ?_⟩
  all_goals
    first
    | exact ⟨fun _ => by assumption, fun _ => ⟨_, by assumption⟩⟩
    | (intro f hf
       first
       | (rw [hok] at hf; exact (Except.ok.injEq _ _ ▸ hf).symm)
       | (rw [hok'] at hf; exact (Except.ok.injEq _ _ ▸ hf).symm)
       | (rw [herr] at hf; exact absurd hf (by simp))
       | (rw [herr'] at hf; exact absurd hf (by simp)))
    | (intro h; exact absurd (by assumption) h)
    | exact fun h => ⟨_, by assumption⟩
    | (constructor
       · rintro ⟨f, hf⟩
         first
         | (rw [herr] at hf; exact absurd hf (by simp))
         | (rw [herr'] at hf; exact absurd hf (by simp))
       · intro h
         exact absurd h (by assumption))

/-- Witness for C3: the default relationship and document filters validate
(and read back unchanged), while `min_weight = 1.2` and `max_chunks = 0`
are rejected with an error. -/
theorem filters_validate_iff_witness :
    RelationshipFilters.validate {} = .ok {} ∧
    (∃ msg, RelationshipFilters.validate { min_weight := 6/5 } = .error msg) ∧
    DocumentFilters.validate {} = .ok {} ∧
    (∃ msg, DocumentFilters.validate { max_chunks := 0 } = .error msg) := by
  have h1 := filters_validate_iff {} {}
  have h2 := filters_validate_iff { min_weight := 6/5 } { max_chunks := 0 }
  refine ⟨?_, ?_, ?_, ?_⟩
  · obtain ⟨f, hf⟩ := h1.1.mpr ⟨by norm_num, by norm_num, by norm_num,
      by intro l hl; simp at hl, by norm_num⟩
    rw [h1.2.1 f hf] at hf
    exact hf
  · exact h2.2.2.1 fun hv =>
      absurd (le_trans hv.2.1 hv.2.2.1) (by norm_num)
  · obtain ⟨f, hf⟩ := h1.2.2.2.1.mpr ⟨by norm_num, by norm_num⟩
    rw [h1.2.2.2.2.1 f hf] at hf
    exact hf
  · exact h2.2.2.2.2.2 fun hv => by
      obtain ⟨a, -⟩ := hv
      norm_num at a

lemma edgeDateOk_none_none (e : EdgeRec) : edgeDateOk e none none = true := by
  unfold edgeDateOk
  cases e.effTimestamp with
  | none => rfl
  | some t => by_cases h : t = 0 <;> simp [h]

lemma edgeMatchesFilters_weight_necessary (e : EdgeOut) (f : RelationshipFilters)
    (h : edgeMatchesFilters e f = true) :
    f.min_weight ≤ e.weightD ∧ e.weightD ≤ f.max_weight := by
  unfold edgeMatchesFilters at h
  simp only [Bool.and_eq_true] at h
  have hw := h.1.1.1.1
  simp only [Bool.not_eq_true', decide_eq_false_iff_not, not_or, not_lt] at hw
  exact hw

/-- C4: the weight clause of `_edge_matches_filters` accepts exactly the
closed interval `[min_weight, max_weight]` (both ends inclusive), with a
missing `weight` key defaulting to `1.0`: every accepted edge has its
weight in the window, and when the other filter dimensions are unset
acceptance is equivalent to the weight window. -/
theorem edge_weight_window (e : EdgeOut) (f : RelationshipFilters) :
    (edgeMatchesFilters e f = true →
      f.min_weight ≤ e.weightD ∧ e.weightD ≤ f.max_weight) ∧
    (f.relation_types = none → f.keywords = none → f.file_paths = none →
      f.date_from = none → f.date_to = none →
      (edgeMatchesFilters e f = true ↔
        f.min_weight ≤ e.weightD ∧ e.weightD ≤ f.max_weight)) ∧
    (e.data.weight = none → e.weightD = 1) ∧
    (∀ q, e.data.weight = some q → e.weightD = q) := by
  refine ⟨edgeMatchesFilters_weight_necessary e f, ?_, ?_, ?_⟩
  · intro h1 h2 h3 h4 h5
    refine ⟨edgeMatchesFilters_weight_necessary e f, ?_⟩
    intro hb
    unfold edgeMatchesFilters
    rw [h1, h2, h3, h4, h5]
    have hw : (!decide (e.weightD < f.min_weight ∨ e.weightD > f.max_weight)) = true := by
      simp [not_lt.mpr hb.1, not_lt.mpr hb.2]
    simp [hw, listTruthy, edgeDateOk_none_none]
    exact hb
  · intro h
    unfold EdgeOut.weightD
    rw [h]
    rfl
  · intro q h
    unfold EdgeOut.weightD
    rw [h]
    rfl

/-- Witness for C4: a filter with window `[3/10, 7/10]` accepts a
weight-`3/10` edge (lower boundary), accepts the upper boundary `7/10`,
rejects `8/10`, and an edge without a weight key defaults to weight `1`. -/
theorem edge_weight_window_witness :
    (edgeMatchesFilters
      ⟨"a", "b", "outgoing", { weight := some (3/10) }⟩
      { min_weight := 3/10, max_weight := 7/10 } = true) ∧
    (edgeMatchesFilters
      ⟨"a", "b", "outgoing", { weight := some (7/10) }⟩
      { min_weight := 3/10, max_weight := 7/10 } = true) ∧
    (edgeMatchesFilters
      ⟨"a", "b", "outgoing", { weight := some (8/10) }⟩
      { min_weight := 3/10, max_weight := 7/10 } = false) ∧
    EdgeOut.weightD ⟨"a", "b", "outgoing", {}⟩ = 1 := by
  refine ⟨?_, ?_, ?_, ?_⟩
  · exact ((edge_weight_window
      ⟨"a", "b", "outgoing", { weight := some (3/10) }⟩
      { min_weight := 3/10, max_weight := 7/10 }).2.1
      rfl rfl rfl rfl rfl).mpr (by constructor <;> norm_num [EdgeOut.weightD])
  · exact ((edge_weight_window
      ⟨"a", "b", "outgoing", { weight := some (7/10) }⟩
      { min_weight := 3/10, max_weight := 7/10 }).2.1
      rfl rfl rfl rfl rfl).mpr (by constructor <;> norm_num [EdgeOut.weightD])
  · have h := (edge_weight_window
      ⟨"a", "b", "outgoing", { weight := some (8/10) }⟩
      { min_weight := 3/10, max_weight := 7/10 }).1
    revert h
    match hm : edgeMatchesFilters
      ⟨"a", "b", "outgoing", { weight := some (8/10) }⟩
      { min_weight := 3/10, max_weight := 7/10 } with
    | false => intro _; rfl
    | true => intro h; exact absurd (h rfl).2 (by norm_num [EdgeOut.weightD])
  · exact (edge_weight_window ⟨"a", "b", "outgoing", {}⟩ {}).2.2.1 rfl

/-- C8: `_apply_pagination` with a valid limit (`≥ 1`) returns at most
`limit` items, and whenever `offset` is at least the number of matched
items the result is the empty list (with or without a limit) — the slice
never errors. -/
theorem pagination_bounds {α : Type} (items : List α) (limit offset : Int)
    (hl : 1 ≤ limit) (ho : 0 ≤ offset) :
    ((applyPagination items (some limit) offset).length : Int) ≤ limit ∧
    ((items.length : Int) ≤ offset → applyPagination items (some limit) offset = []) ∧
    ((items.length : Int) ≤ offset → applyPagination items none offset = []) := by
  have hne : limit ≠ 0 := by omega
  refine ⟨?_, ?_, ?_⟩
  · unfold applyPagination pySlice
    simp only [hne, reduceIte]
    split_ifs <;> simp only [List.length_take, List.length_drop] <;> omega
  · intro h
    unfold applyPagination pySlice
    simp only [hne, reduceIte]
    split_ifs <;>
      first
      | omega
      | (rw [show ((min offset (items.length : Int)).toNat) = items.length by omega]
         simp [List.drop_length])
  · intro h
    simp only [applyPagination, pySlice]
    split_ifs <;>
      first
      | omega
      | (rw [show ((min offset (items.length : Int)).toNat) = items.length by omega]
         simp [List.drop_length])

/-- Witness for C8: slicing a three-element list with limit 2 from offset 1
returns at most 2 items, and offset 5 beyond the list yields `[]`. -/
theorem pagination_bounds_witness :
    (((applyPagination ["x", "y", "z"] (some 2) 1).length : Int) ≤ 2) ∧
    applyPagination ["x", "y", "z"] (some 2) 5 = [] ∧
    applyPagination ["x", "y", "z"] none 5 = [] := by
  refine ⟨(pagination_bounds ["x", "y", "z"] 2 1 (by decide) (by decide)).1,
    (pagination_bounds ["x", "y", "z"] 2 5 (by decide) (by decide)).2.1 (by decide),
    (pagination_bounds ["x", "y", "z"] 2 5 (by decide) (by decide)).2.2 (by decide)⟩

lemma edgeDateOk_eff_falsy (e : EdgeRec)
    (ht : e.timestamp = none ∨ e.timestamp = some 0)
    (hc : e.created_at = none ∨ e.created_at = some 0)
    (dfrom dto : Option Int) : edgeDateOk e dfrom dto = true := by
  have heff : e.effTimestamp = none ∨ e.effTimestamp = some 0 := by
    unfold EdgeRec.effTimestamp
    rcases ht with h | h <;> rw [h] <;> simp <;> exact hc
  unfold edgeDateOk
  rcases heff with h | h <;> rw [h] <;> simp

lemma chunkDateOk_eff_falsy (c : ChunkRec)
    (ht : c.timestamp = none ∨ c.timestamp = some 0)
    (hc : c.created_at = none ∨ c.created_at = some 0)
    (dfrom dto : Option Int) : chunkDateOk c dfrom dto = true := by
  have heff : c.effTimestamp = none ∨ c.effTimestamp = some 0 := by
    unfold ChunkRec.effTimestamp
    rcases ht with h | h <;> rw [h] <;> simp <;> exact hc
  unfold chunkDateOk
  rcases heff with h | h <;> rw [h] <;> simp

/-- C10: in both date-range predicates, a record whose `timestamp` and
`created_at` are absent or `0` is never excluded; a bound equal to `0`
behaves exactly as an unset bound; and when the record's resolved timestamp
is present and nonzero, the predicate is precisely the conjunction of the
two bound checks, each applied only when its bound is set and nonzero. -/
theorem date_filter_zero_bypass (e : EdgeRec) (c : ChunkRec)
    (dfrom dto : Option Int) :
    ((e.timestamp = none ∨ e.timestamp = some 0) →
      (e.created_at = none ∨ e.created_at = some 0) →
      edgeDateOk e dfrom dto = true) ∧
    (edgeDateOk e (some 0) dto = edgeDateOk e none dto) ∧
    (edgeDateOk e dfrom (some 0) = edgeDateOk e dfrom none) ∧
    (∀ t, e.effTimestamp = some t → t ≠ 0 →
      edgeDateOk e dfrom dto =
        ((match dfrom with
          | some df => if df ≠ 0 then decide (t ≥ df) else true
          | none => true) &&
         (match dto with
          | some dt => if dt ≠ 0 then decide (t ≤ dt) else true
          | none => true))) ∧
    ((c.timestamp = none ∨ c.timestamp = some 0) →
      (c.created_at = none ∨ c.created_at = some 0) →
      chunkDateOk c dfrom dto = true) ∧
    (chunkDateOk c (some 0) dto = chunkDateOk c none dto) ∧
    (chunkDateOk c dfrom (some 0) = chunkDateOk c dfrom none) ∧
    (∀ t, c.effTimestamp = some t → t ≠ 0 →
      chunkDateOk c dfrom dto =
        ((match dfrom with
          | some df => if df ≠ 0 then decide (t ≥ df) else true
          | none => true) &&
         (match dto with
          | some dt => if dt ≠ 0 then decide (t ≤ dt) else true
          | none => true))) := by
  refine ⟨fun ht hc => edgeDateOk_eff_falsy e ht hc dfrom dto, ?_, ?_, ?_,
    fun ht hc => chunkDateOk_eff_falsy c ht hc dfrom dto, ?_, ?_, ?_⟩
  · unfold edgeDateOk
    cases e.effTimestamp with
    | none => rfl
    | some t => by_cases h : t = 0 <;> simp [h]
  · unfold edgeDateOk
    cases e.effTimestamp with
    | none => rfl
    | some t => by_cases h : t = 0 <;> simp [h]
  · intro t heff ht
    unfold edgeDateOk
    rw [heff]
    simp [ht]
  · unfold chunkDateOk
    cases c.effTimestamp with
    | none => rfl
    | some t => by_cases h : t = 0 <;> simp [h]
  · unfold chunkDateOk
    cases c.effTimestamp with
    | none => rfl
    | some t => by_cases h : t = 0 <;> simp [h]
  · intro t heff ht
    unfold chunkDateOk
    rw [heff]
    simp [ht]

/-- Witness for C10: an edge and a chunk with zero/absent timestamps pass a
restrictive date filter, and a concrete nonzero timestamp `5` against
bounds `[3, 4]` is rejected exactly by the bound checks. -/
theorem date_filter_zero_bypass_witness :
    edgeDateOk { timestamp := some 0 } (some 100) (some 200) = true ∧
    chunkDateOk { created_at := some 0 } (some 100) (some 200) = true ∧
    edgeDateOk { timestamp := some 5 } (some 3) (some 4) = false := by
  have h1 := date_filter_zero_bypass { timestamp := some 0 }
    { created_at := some 0 } (some 100) (some 200)
  have h2 := date_filter_zero_bypass ({ timestamp := some 5 } : EdgeRec)
    ({} : ChunkRec) (some 3) (some 4)
  refine ⟨h1.1 (by right; rfl) (by left; rfl),
    h1.2.2.2.2.1 (by left; rfl) (by right; rfl), ?_⟩
  rw [h2.2.2.2.1 5 (by rfl) (by decide)]
  decide

/-- C5: `_compute_statistics` omits the `avg_relationship_weight` key
entirely when the combined incoming-plus-outgoing list is empty (also when
the relationship section is absent), and otherwise reports exactly the
arithmetic mean of the edges' weights across both directions (missing
weight counted as `1.0`, via `EdgeOut.weightD`). -/
theorem statistics_avg_weight (ed : Option NodeRec) (r : RelResult)
    (docs : Option (List ChunkOut)) :
    ((r.incoming ++ r.outgoing) = [] →
      (computeStatistics ed (some r) docs).avg_relationship_weight = none) ∧
    ((r.incoming ++ r.outgoing) ≠ [] →
      (computeStatistics ed (some r) docs).avg_relationship_weight =
        some (((r.incoming ++ r.outgoing).map EdgeOut.weightD).sum /
          ((r.incoming ++ r.outgoing).length : Rat))) ∧
    (computeStatistics ed none docs).avg_relationship_weight = none := by
  refine ⟨?_, ?_, ?_⟩
  · intro h
    unfold computeStatistics
    rcases docs with - | docs <;> rcases ed with - | n <;>
      simp [h] <;> split_ifs <;> simp
  · intro h
    unfold computeStatistics
    rcases docs with - | docs <;> rcases ed with - | n <;>
      simp [h] <;> split_ifs <;> simp
  · unfold computeStatistics
    rcases docs with - | docs <;> rcases ed with - | n <;>
      simp <;> split_ifs <;> simp

/-- Witness for C5: three edges with weights `0.2, 0.4, 0.6` average to
`0.4`, and with zero edges the key is absent. -/
theorem statistics_avg_weight_witness :
    (computeStatistics none
      (some ⟨[⟨"a", "x", "incoming", { weight := some (2/10) }⟩],
             [⟨"x", "b", "outgoing", { weight := some (4/10) }⟩,
              ⟨"x", "c", "outgoing", { weight := some (6/10) }⟩], 3⟩)
      none).avg_relationship_weight = some (4/10) ∧
    (computeStatistics none (some ⟨[], [], 0⟩) none).avg_relationship_weight
      = none := by
  refine ⟨?_, (statistics_avg_weight none ⟨[], [], 0⟩ none).1 rfl⟩
  rw [(statistics_avg_weight none
      ⟨[⟨"a", "x", "incoming", { weight := some (2/10) }⟩],
       [⟨"x", "b", "outgoing", { weight := some (4/10) }⟩,
        ⟨"x", "c", "outgoing", { weight := some (6/10) }⟩], 3⟩ none).2.1
    (by simp)]
  norm_num [EdgeOut.weightD]

lemma pySortBy_nil (key : α → Value) (rev : Bool) : pySortBy key rev [] = [] := by
  unfold pySortBy
  split_ifs <;> rfl

lemma applyPagination_nil (limit : Option Int) (offset : Int) :
    applyPagination ([] : List α) limit offset = [] := by
  simp [applyPagination, pySlice]

lemma processEdges_nil (entity_name direction : String) (f : RelationshipFilters) :
    processEdges [] entity_name direction f = [] := by
  unfold processEdges sortEdges
  simp [pySortBy_nil]

/-- C1: when a limit or a nonzero offset is set, `get_entity_relationships`
applies the limit/offset window to the incoming and to the outgoing list
independently (each is the pagination of its own processed list — the two
are never merged), and `total_count` is the sum of the two post-pagination
lengths. -/
theorem rel_pagination_per_direction (g : GraphStore) (name : String)
    (f : RelationshipFilters) (hn : g.has_node name = true)
    (hg : relPaginationGuard f = true) :
    (getEntityRelationships g name (some f)).incoming =
      applyPagination (incomingProcessed g name f) f.limit f.offset ∧
    (getEntityRelationships g name (some f)).outgoing =
      applyPagination (outgoingProcessed g name f) f.limit f.offset ∧
    (getEntityRelationships g name (some f)).total_count =
      (getEntityRelationships g name (some f)).incoming.length +
        (getEntityRelationships g name (some f)).outgoing.length := by
  unfold getEntityRelationships
  simp only [Option.getD_some, hn, hg, Bool.not_true, Bool.false_eq_true,
    if_false, if_true, reduceIte]
  by_cases he : ((g.node_edges name).getD []).isEmpty
  · have hew : edgesWithData g name = [] := by
      unfold edgesWithData
      rw [List.isEmpty_iff.mp he]
      rfl
    have hi : incomingProcessed g name f = [] := by
      unfold incomingProcessed
      rw [hew]
      split_ifs <;> simp [processEdges_nil]
    have ho : outgoingProcessed g name f = [] := by
      unfold outgoingProcessed
      rw [hew]
      split_ifs <;> simp [processEdges_nil]
    simp [he, hi, ho, applyPagination_nil]
  · simp [he]

/-- A two-outgoing-edge graph used to exercise the relationship
pagination. -/
def demoGraph : GraphStore :=
  { has_node := fun s => s = "E"
    get_node := fun _ => none
    node_edges := fun s => if s = "E" then some [("E", "A"), ("E", "B")] else none
    get_edge := fun s t =>
      if s = "E" ∧ (t = "A" ∨ t = "B") then some { weight := some 1 } else none
    all_nodes := [] }

/-- A filter asking for at most one relationship per direction. -/
def demoFilters : RelationshipFilters := { limit := some 1 }

/-- Witness for C1: on a graph with two matching outgoing edges and
`limit = 1`, each direction gets its own window, and `total_count` is the
post-pagination sum `0 + 1 = 1` — not the pre-pagination match count `2`. -/
theorem rel_pagination_per_direction_witness :
    (getEntityRelationships demoGraph "E" (some demoFilters)).outgoing =
      applyPagination (outgoingProcessed demoGraph "E" demoFilters)
        demoFilters.limit demoFilters.offset ∧
    (getEntityRelationships demoGraph "E" (some demoFilters)).total_count =
      (getEntityRelationships demoGraph "E" (some demoFilters)).incoming.length +
        (getEntityRelationships demoGraph "E" (some demoFilters)).outgoing.length ∧
    (getEntityRelationships demoGraph "E" (some demoFilters)).total_count = 1 ∧
    (outgoingProcessed demoGraph "E" demoFilters).length = 2 := by
  have h := rel_pagination_per_direction demoGraph "E" demoFilters
    (by decide) (by decide)
  exact ⟨h.2.1, h.2.2, by decide, by decide⟩

/-- A store with no nodes, edges or chunks. -/
def emptyStore : GraphStore :=
  { has_node := fun _ => false
    get_node := fun _ => none
    node_edges := fun _ => none
    get_edge := fun _ _ => none
    all_nodes := [] }

/-- An empty chunk store. -/
def emptyChunks : ChunkStore := { get_by_ids := fun _ => [] }

/-- The statistics dict produced for an absent entity when only the
relationship/document/statistics stages run. -/
def absentEntityStats : Stats :=
  { total_relationships := some 0
    incoming_relationships := some 0
    outgoing_relationships := some 0 }

/-- Counterexample for C2: for an unknown entity with
`include_entity_details=false`, `query_entity_full` does return a partial
result, but its `documents` key is *absent* (`none`), not present-and-empty:
the empty document list is falsy, so `if documents:` drops the key. -/
theorem query_full_absent_docs_key_cex :
    (queryEntityFull emptyStore emptyChunks "Missing"
      (some { include_entity_details := false })).isSome = true ∧
    ((queryEntityFull emptyStore emptyChunks "Missing"
      (some { include_entity_details := false })).bind
        QueryResult.documents) = none := by
  decide

/-- C2 (amended): for an entity absent from the store,
`query_entity_full` with `include_entity_details=true` (the default)
returns the not-found signal `none`; with `include_entity_details=false`
it returns a partial result whose relationship section is present and
empty while the empty document section is dropped (`documents` key
absent), the statistics stage having still run over the empty sections. -/
theorem query_full_absent_entity (g : GraphStore) (ch : ChunkStore)
    (name : String) (hnode : g.get_node name = none)
    (hhas : g.has_node name = false) :
    (∀ o : EntityQueryOptions, o.include_entity_details = true →
      queryEntityFull g ch name (some o) = none) ∧
    (∃ res,
      queryEntityFull g ch name (some { include_entity_details := false }) =
        some res ∧
      res.entity = none ∧
      res.relationships = some ⟨[], [], 0⟩ ∧
      res.documents = none ∧
      res.statistics = some absentEntityStats ∧
      res.related_entities = none) := by
  constructor
  · intro o ho
    unfold queryEntityFull getEntityDetails
    simp [ho, hnode]
  · have hrel : getEntityRelationships g name none = ⟨[], [], 0⟩ := by
      unfold getEntityRelationships
      simp [hhas]
    have hdoc : getEntityDocuments g ch name none = [] := by
      unfold getEntityDocuments getEntityDetails
      rw [hnode]
    unfold queryEntityFull
    simp only [Option.getD_some, Bool.false_and, Bool.and_self, if_false,
      reduceIte, hrel, hdoc]
    refine ⟨_, rfl, rfl, rfl, rfl, ?_, rfl⟩
    unfold computeStatistics absentEntityStats
    simp [Stats.truthy]

/-- Witness for C2: at the empty store, the default query on an unknown id
is `none`, and with the Detail stage off the result exists with an empty
relationship section and no `documents` key. -/
theorem query_full_absent_entity_witness :
    queryEntityFull emptyStore emptyChunks "Missing" (some {}) = none ∧
    (∃ res,
      queryEntityFull emptyStore emptyChunks "Missing"
        (some { include_entity_details := false }) = some res ∧
      res.relationships = some ⟨[], [], 0⟩ ∧
      res.documents = none) := by
  have h := query_full_absent_entity emptyStore emptyChunks "Missing" rfl rfl
  obtain ⟨res, hres, -, hr, hd, -⟩ := h.2
  exact ⟨h.1 {} rfl, res, hres, hr, hd⟩

lemma pySortBy_perm (key : α → Value) (rev : Bool) (l : List α) :
    (pySortBy key rev l).Perm l := by
  unfold pySortBy
  split_ifs <;> first | exact List.perm_insertionSort _ _ | exact .refl _

/-- C6: `_sort_edges`/`_sort_chunks` are total (they always return a
permutation of their input — nothing is raised or lost); a record whose
sort-field value is absent gets the default key `0.0` for `weight`, `0` for
`timestamp`/`created_at` (and `chunk_order_index` for chunks) and `""`
otherwise; and when the keys are not all comparable (the case where
CPython's sort raises) the filtered list is returned in its pre-sort
order. -/
theorem sort_never_raises (edges : List EdgeOut) (chunks : List ChunkOut)
    (rf : RelationshipFilters) (df : DocumentFilters) :
    (sortEdges edges rf).Perm edges ∧
    (sortChunks chunks df).Perm chunks ∧
    (∀ e : EdgeOut, e.get rf.sort_by = .vnone →
      edgeSortKey rf.sort_by e =
        (if rf.sort_by = "weight" then .vrat 0
         else if rf.sort_by = "timestamp" ∨ rf.sort_by = "created_at" then .vint 0
         else .vstr "")) ∧
    (∀ c : ChunkOut, c.get df.sort_by = .vnone →
      chunkSortKey df.sort_by c =
        (if df.sort_by = "timestamp" ∨ df.sort_by = "created_at" then .vint 0
         else if df.sort_by = "chunk_order_index" then .vint 0
         else .vstr "")) ∧
    (Value.allComparable (edges.map (edgeSortKey rf.sort_by)) = false →
      sortEdges edges rf = edges) ∧
    (Value.allComparable (chunks.map (chunkSortKey df.sort_by)) = false →
      sortChunks chunks df = chunks) := by
  refine ⟨pySortBy_perm _ _ _, pySortBy_perm _ _ _, ?_, ?_, ?_, ?_⟩
  · intro e h
    unfold edgeSortKey
    rw [h]
  · intro c h
    unfold chunkSortKey
    rw [h]
  · intro h
    unfold sortEdges pySortBy
    rw [h]
    simp
  · intro h
    unfold sortChunks pySortBy
    rw [h]
    simp

/-- Witness for C6: an edge without the sort field gets the documented
default keys; a chunk list with mixed `tokens` presence (int vs `""`
default) has incomparable keys and is returned unsorted; an edge list with
an `extra` key of mixed types likewise falls back to its input order. -/
theorem sort_never_raises_witness :
    edgeSortKey "weight" ⟨"a", "b", "outgoing", {}⟩ = .vrat 0 ∧
    edgeSortKey "timestamp" ⟨"a", "b", "outgoing", {}⟩ = .vint 0 ∧
    edgeSortKey "description" ⟨"a", "b", "outgoing", { weight := some 1 }⟩ = .vstr "" ∧
    chunkSortKey "chunk_order_index" ⟨"c1", none, none⟩ = .vint 0 ∧
    sortEdges [⟨"a", "b", "o", { extra := [("foo", .vint 1)] }⟩,
               ⟨"a", "c", "o", { extra := [("foo", .vstr "x")] }⟩]
      { sort_by := "foo" } =
      [⟨"a", "b", "o", { extra := [("foo", .vint 1)] }⟩,
       ⟨"a", "c", "o", { extra := [("foo", .vstr "x")] }⟩] ∧
    sortChunks
      [⟨"c1", none, some ⟨none, none, none, some 5, none⟩⟩,
       ⟨"c2", none, none⟩]
      { sort_by := "tokens" } =
      [⟨"c1", none, some ⟨none, none, none, some 5, none⟩⟩,
       ⟨"c2", none, none⟩] := by
  refine ⟨?_, ?_, ?_, ?_, ?_, ?_⟩
  · rw [(sort_never_raises [] [] {} {}).2.2.1 ⟨"a", "b", "outgoing", {}⟩ rfl]
    decide
  · rw [(sort_never_raises [] [] { sort_by := "timestamp" } {}).2.2.1
      ⟨"a", "b", "outgoing", {}⟩ rfl]
    decide
  · rw [(sort_never_raises [] [] { sort_by := "description" } {}).2.2.1
      ⟨"a", "b", "outgoing", { weight := some 1 }⟩ rfl]
    decide
  · rw [(sort_never_raises [] [] {} { sort_by := "chunk_order_index" }).2.2.2.1
      ⟨"c1", none, none⟩ rfl]
    decide
  · exact (sort_never_raises _ [] { sort_by := "foo" } {}).2.2.2.2.1 (by decide)
  · exact (sort_never_raises [] _ {} { sort_by := "tokens" }).2.2.2.2.2 (by decide)

/-- C7: every entity returned by `search_entities` carries the relevance
score of the source's case chain — `1.0` on case-insensitive equality,
else `0.8` on a case-insensitive prefix match, else `0.5` on a
case-insensitive substring match, else `0.3` — and the returned list is
ordered by relevance score descending. -/
theorem search_relevance_scores (g : GraphStore) (query : String)
    (ets : Option (List String)) (limit : Int) :
    (∀ e ∈ searchEntities g query ets limit,
      e.relevance_score = some (relevanceScore query e.entity_id)) ∧
    List.Sorted
      (fun a b : EntitySummary =>
        (b.relevance_score.getD 0) ≤ (a.relevance_score.getD 0))
      (searchEntities g query ets limit) ∧
    (∀ q id : String, pyLower id = pyLower q → relevanceScore q id = 1) ∧
    (∀ q id : String, pyLower id ≠ pyLower q →
      pyStartsWith (pyLower q) (pyLower id) = true →
      relevanceScore q id = 8/10) ∧
    (∀ q id : String, pyLower id ≠ pyLower q →
      pyStartsWith (pyLower q) (pyLower id) = false →
      strContains (pyLower id) (pyLower q) = true →
      relevanceScore q id = 1/2) ∧
    (∀ q id : String, pyLower id ≠ pyLower q →
      pyStartsWith (pyLower q) (pyLower id) = false →
      strContains (pyLower id) (pyLower q) = false →
      relevanceScore q id = 3/10) := by
  refine ⟨?_, ?_, ?_, ?_, ?_, ?_⟩
  · intro e he
    unfold searchEntities at he
    rw [(List.perm_insertionSort _ _).mem_iff] at he
    obtain ⟨a, ha, rfl⟩ := List.mem_map.mp he
    rfl
  · unfold searchEntities
    haveI ht : IsTotal EntitySummary
        (fun a b =>
          decide ((b.relevance_score.getD 0) ≤ (a.relevance_score.getD 0)) = true) :=
      ⟨fun a b => by
        simp only [decide_eq_true_eq]
        exact le_total _ _⟩
    haveI htr : IsTrans EntitySummary
        (fun a b =>
          decide ((b.relevance_score.getD 0) ≤ (a.relevance_score.getD 0)) = true) :=
      ⟨fun a b c hab hbc => by
        simp only [decide_eq_true_eq] at *
        exact le_trans hbc hab⟩
    exact (List.sorted_insertionSort _ _).imp fun h => of_decide_eq_true h
  · intro q id h
    unfold relevanceScore
    simp [h]
  · intro q id h hp
    unfold relevanceScore
    simp [h, hp]
  · intro q id h hp hs
    unfold relevanceScore
    simp [h, hp, hs]
  · intro q id h hp hs
    unfold relevanceScore
    simp [h, hp, hs]

/-- Witness for C7: `"Acme"` against `"Acme Corp"` scores `0.8` (prefix),
`"acme"` against `"Acme"` scores `1.0` (case-insensitive exact), `"orp"`
against `"Acme Corp"` scores `0.5` (substring), a non-matching query
scores `0.3`, and a concrete search result is sorted by score
descending. -/
theorem search_relevance_scores_witness :
    relevanceScore "Acme" "Acme Corp" = 8/10 ∧
    relevanceScore "acme" "Acme" = 1 ∧
    relevanceScore "orp" "Acme Corp" = 1/2 ∧
    relevanceScore "zzz" "Acme" = 3/10 ∧
    List.Sorted
      (fun a b : EntitySummary =>
        (b.relevance_score.getD 0) ≤ (a.relevance_score.getD 0))
      (searchEntities emptyStore "acme" none 20) := by
  have h := search_relevance_scores emptyStore "acme" none 20
  exact ⟨h.2.2.2.1 "Acme" "Acme Corp" (by decide) (by decide),
    h.2.2.1 "acme" "Acme" (by decide),
    h.2.2.2.2.1 "orp" "Acme Corp" (by decide) (by decide) (by decide),
    h.2.2.2.2.2 "zzz" "Acme" (by decide) (by decide) (by decide),
    h.2.1⟩

lemma listEntitiesScan_ids_nodup (nodes : List (Option NodeRec))
    (ets : Option (List String)) (np : Option String) :
    ∀ seen : List String,
      ((listEntitiesScan nodes ets np seen).map EntitySummary.entity_id).Nodup ∧
      ∀ s ∈ (listEntitiesScan nodes ets np seen).map EntitySummary.entity_id,
        s ∉ seen := by
  induction nodes with
  | nil => intro seen; simp [listEntitiesScan]
  | cons optNode rest ih =>
    intro seen
    cases optNode with
    | none => simpa only [listEntitiesScan] using ih seen
    | some node =>
      simp only [listEntitiesScan]
      split
      · exact ih seen
      · split
        · exact ih seen
        · next eid heq =>
          split
          · exact ih seen
          · next hskip =>
            push_neg at hskip
            obtain ⟨hne, hnotin⟩ := hskip
            have ihrec := ih (eid :: seen)
            split
            · exact ⟨ihrec.1, fun s hs hmem =>
                ihrec.2 s hs (List.mem_cons_of_mem _ hmem)⟩
            · split
              · exact ⟨ihrec.1, fun s hs hmem =>
                  ihrec.2 s hs (List.mem_cons_of_mem _ hmem)⟩
              · refine ⟨?_, ?_⟩
                · simp only [List.map_cons, List.nodup_cons]
                  exact ⟨fun hmem => ihrec.2 eid hmem (List.mem_cons_self _ _),
                    ihrec.1⟩
                · intro s hs hmem
                  simp only [List.map_cons, List.mem_cons] at hs
                  rcases hs with rfl | hs
                  · exact hnotin hmem
                  · exact ihrec.2 s hs (List.mem_cons_of_mem _ hmem)

lemma pySlice_sublist (l : List α) (a : Int) (b : Option Int) :
    (pySlice l a b).Sublist l := by
  unfold pySlice
  exact (List.take_sublist _ _).trans (List.drop_sublist _ _)

/-- C9: the canonical id of a raw node is the first non-empty of its `id`,
`entity_name` and `name` fields, and `list_entities` never returns the
same canonical id twice — duplicates from storage are deduplicated, so the
output entity-id list has no repeats (through sorting and pagination). -/
theorem list_entities_canonical_dedup (g : GraphStore)
    (ets : Option (List String)) (np : Option String) (limit offset : Int)
    (sb so : String) :
    ((listEntities g ets np limit offset sb so).entities.map
      EntitySummary.entity_id).Nodup ∧
    (∀ n : NodeRec, ∀ s, n.id = some s → s ≠ "" → canonicalId n = some s) ∧
    (∀ n : NodeRec, ∀ s, (n.id = none ∨ n.id = some "") →
      n.entity_name = some s → s ≠ "" → canonicalId n = some s) ∧
    (∀ n : NodeRec, (n.id = none ∨ n.id = some "") →
      (n.entity_name = none ∨ n.entity_name = some "") →
      canonicalId n = n.name) := by
  refine ⟨?_, ?_, ?_, ?_⟩
  · unfold listEntities
    simp only []
    have h1 := (listEntitiesScan_ids_nodup g.all_nodes ets np []).1
    have hperm := pySortBy_perm (fun e : EntitySummary => e.get sb)
      (pyLower so = "desc") (listEntitiesScan g.all_nodes ets np [])
    have h2 := ((hperm.map EntitySummary.entity_id).symm).nodup h1
    exact List.Nodup.sublist
      ((pySlice_sublist _ offset (some (offset + limit))).map
        EntitySummary.entity_id) h2
  · intro n s hid hne
    unfold canonicalId pyOrStr
    rw [hid]
    simp [hne]
  · intro n s hid hen hne
    unfold canonicalId pyOrStr
    rcases hid with h | h <;> rw [h, hen] <;> simp [hne]
  · intro n hid hen
    unfold canonicalId pyOrStr
    rcases hid with h | h <;> rcases hen with h' | h' <;> rw [h, h'] <;> simp

/-- Witness for C9: two raw nodes both resolving to canonical id `"Acme"`
(one via `id`, one via `entity_name`) produce a single `"Acme"` entry, the
listing's id list is duplicate-free, and the canonical id resolves as
first-non-empty on concrete nodes. -/
theorem list_entities_canonical_dedup_witness :
    ((listEntities
      { has_node := fun _ => false
        get_node := fun _ => none
        node_edges := fun _ => none
        get_edge := fun _ _ => none
        all_nodes := [some { id := some "Acme" },
          some { entity_name := some "Acme" },
          some { name := some "Beta" }] }
      none none 100 0 "entity_id" "asc").entities.map
        EntitySummary.entity_id) = ["Acme", "Beta"] ∧
    ((listEntities
      { has_node := fun _ => false
        get_node := fun _ => none
        node_edges := fun _ => none
        get_edge := fun _ _ => none
        all_nodes := [some { id := some "Acme" },
          some { entity_name := some "Acme" },
          some { name := some "Beta" }] }
      none none 100 0 "entity_id" "asc").entities.map
        EntitySummary.entity_id).Nodup ∧
    canonicalId { id := some "Acme", entity_name := some "ignored" } =
      some "Acme" ∧
    canonicalId { id := some "", entity_name := some "Acme" } = some "Acme" ∧
    canonicalId { name := some "Beta" } = some "Beta" := by
  have h := list_entities_canonical_dedup
    { has_node := fun _ => false
      get_node := fun _ => none
      node_edges := fun _ => none
      get_edge := fun _ _ => none
      all_nodes := [some { id := some "Acme" },
        some { entity_name := some "Acme" },
        some { name := some "Beta" }] }
    none none 100 0 "entity_id" "asc"
  refine ⟨by rfl, h.1, ?_, ?_, ?_⟩
  · exact h.2.1 { id := some "Acme", entity_name := some "ignored" } "Acme"
      rfl (by decide)
  · exact h.2.2.1 { id := some "", entity_name := some "Acme" } "Acme"
      (.inr rfl) rfl (by decide)
  · exact h.2.2.2 { name := some "Beta" } (.inl rfl) (.inl rfl)
